import Mathlib

/-!
Shallow embedding of `pdbscraper.py` (protondb_scraper) and proofs about it.

Python dictionaries with scalar JSON-style values are modelled as ordered
association lists (`Dict`), with first-occurrence lookup and in-place update,
matching Python dict semantics for duplicate-free key lists.  Machine floats
only ever appear as literals that are stored and compared, never computed
with, so they are modelled as rationals.
-/

namespace PdbScraper

/-- A Python scalar value as it can appear in the settings dictionary:
`None`, a bool, an int, a float (modelled as a rational: the program only
stores and compares float literals, never does arithmetic on them), or a
string. -/
inductive Val where
  | none
  | bool (b : Bool)
  | int (n : ℤ)
  | float (q : ℚ)
  | str (s : String)
  deriving DecidableEq, Repr

/-- A Python dict with string keys, as an ordered association list. -/
abbrev Dict := List (String × Val)

/-- First-occurrence lookup, `d[k]` / `d.get(k)`. -/
def dictGet : Dict → String → Option Val
  | [], _ => Option.none
  | (k', v') :: rest, k => if k' = k then some v' else dictGet rest k

/-- Lookup defaulting to `Val.none` for a missing key. -/
def dictGetD (d : Dict) (k : String) : Val :=
  (dictGet d k).getD Val.none

/-- The keys of the dict, in order. -/
def dictKeys (d : Dict) : List String :=
  d.map Prod.fst

/-- `d[k] = v`: replace the value at the first occurrence of `k`, or append
the pair when `k` is absent (Python dict insertion order semantics). -/
def dictSet : Dict → String → Val → Dict
  | [], k, v => [(k, v)]
  | (k', v') :: rest, k, v =>
      if k' = k then (k, v) :: rest else (k', v') :: dictSet rest k v

/-- `d.update(other)`: set every key/value pair of `other` in `d`, in order. -/
def dictUpdate (d other : Dict) : Dict :=
  other.foldl (fun acc p => dictSet acc p.1 p.2) d

/-- Python truthiness of a scalar value. -/
def truthy : Val → Bool
  | Val.none => false
  | Val.bool b => b
  | Val.int n => decide (n ≠ 0)
  | Val.float q => decide (q ≠ 0)
  | Val.str s => decide (s ≠ "")

/-- Python `str()` rendering of a scalar, as used inside f-strings.  Only the
string and int cases are ever exercised by the program's f-strings (sort key
and page numbers); the float rendering is a stand-in. -/
def pyStr : Val → String
  | Val.none => "None"
  | Val.bool b => if b then "True" else "False"
  | Val.int n => toString n
  | Val.float q => toString q
  | Val.str s => s

/-- The internal default settings table built at the top of `get_settings`
(`pdbscraper.py` lines 173-188). -/
def defaults : Dict :=
  [("config", Val.none),
   ("output", Val.none),
   ("driver", Val.str "/usr/local/bin/geckodriver"),
   ("optimize", Val.bool false),
   ("source", Val.str "https://www.protondb.com/explore"),
   ("sort", Val.str "wilsonRating"),
   ("native", Val.bool false),
   ("maxpages", Val.int 20),
   ("initpage", Val.int 0),
   ("pagedown", Val.int 10),
   ("wait", Val.float (4/10)),
   ("printconfig", Val.bool false),
   ("test", Val.bool false),
   ("fast", Val.bool false)]

/-- The five `store_true` commandline flags whose falsy values are converted
to `None` at the end of `get_arguments`. -/
def storeTrueFlags : List String :=
  ["native", "printconfig", "optimize", "test", "fast"]

/-- One `if not parser_dict[flag]: parser_dict[flag] = None` statement from
the tail of `get_arguments` (`pdbscraper.py` lines 136-145). -/
def normFlag (flag : String) (d : Dict) : Dict :=
  if truthy (dictGetD d flag) then d else dictSet d flag Val.none

/-- The tail of `get_arguments` (`pdbscraper.py` lines 131-146): for each
`store_true` flag, a falsy parsed value is replaced by `None` so that an
unpassed flag does not override defaults or the config file.  The five
statements run in source order. -/
def normalize_store_true (d : Dict) : Dict :=
  normFlag "fast" (normFlag "test" (normFlag "optimize" (normFlag "printconfig" (normFlag "native" d))))

/-- Stage 2 of `get_settings` (`pdbscraper.py` lines 198-201): overlay every
commandline argument whose value is not `None`. -/
def overlayArgs (s : Dict) (args : Dict) : Dict :=
  args.foldl (fun acc p => if p.2 = Val.none then acc else dictSet acc p.1 p.2) s

/-- The body of the `if settings['test']:` preset block
(`pdbscraper.py` lines 203-210). -/
def applyTestPreset (s : Dict) : Dict :=
  let s := dictSet s "optimize" (Val.bool false)
  let s := dictSet s "maxpages" (Val.int 2)
  let s := dictSet s "initpage" (Val.int 0)
  let s := dictSet s "pagedown" (Val.int 10)
  let s := dictSet s "wait" (Val.int 1)
  let s := dictSet s "output" Val.none
  let s := dictSet s "printconfig" (Val.bool true)
  s

/-- Stage 1 of `get_settings` (`pdbscraper.py` lines 189-197): start from the
defaults and overlay the config file when the `config` argument is truthy and
the file could be read.  `configFile = Option.none` models
`FileNotFoundError`, where the code prints a warning and keeps going. -/
def configStage (args : Dict) (configFile : Option Dict) : Dict :=
  if truthy (dictGetD args "config") then
    match configFile with
    | some cfg => dictUpdate defaults cfg
    | Option.none => defaults
  else defaults

/-- The `if settings['test']: ... elif not settings['output']: ...` block of
`get_settings` (`pdbscraper.py` lines 202-215). -/
def testOutputStage (s : Dict) (today : String) : Dict :=
  if truthy (dictGetD s "test") then applyTestPreset s
  else if truthy (dictGetD s "output") then s
  else
    dictSet s "output"
      (Val.str ("protondb-" ++ pyStr (dictGetD s "sort") ++ "-" ++ today ++ ".json"))

/-- The `if settings['fast']:` block of `get_settings`
(`pdbscraper.py` lines 216-218). -/
def fastStage (s : Dict) : Dict :=
  if truthy (dictGetD s "fast") then
    dictSet (dictSet s "optimize" (Val.bool true)) "wait" (Val.float (1/10))
  else s

/-- Stages 3-4 of `get_settings` (`pdbscraper.py` lines 202-218): the `test`
preset block, the `elif` default-output-filename block, and the `fast` preset
block, in source order. -/
def presetStage (s : Dict) (today : String) : Dict :=
  fastStage (testOutputStage s today)

/-- `get_settings` (`pdbscraper.py` lines 149-219).  `configFile` is the
content of the config file named by the `config` argument;
`today` is `str(datetime.datetime.utcnow().date())`. -/
def get_settings (args : Dict) (configFile : Option Dict) (today : String) : Dict :=
  presetStage (overlayArgs (configStage args configFile) args) today

/-- The settings keys written by the `test` preset block, the default-output
`elif` block, or the `fast` preset block of `get_settings`. -/
def presetWrittenKeys : List String :=
  ["optimize", "maxpages", "initpage", "pagedown", "wait", "output", "printconfig"]

/-- The recognized settings keys that none of the preset blocks of
`get_settings` ever writes. -/
def untouchedKeys : List String :=
  ["config", "driver", "source", "sort", "native", "test", "fast"]

/-- `build_url_list` (`pdbscraper.py` lines 407-430).  Returns `Option.none`
when the `source`, `initpage` or `maxpages` values have types on which the
Python code would raise a `TypeError` (string concatenation / `range`). -/
def build_url_list (s : Dict) : Option (List String) :=
  let options := "&sort=" ++ pyStr (dictGetD s "sort")
  let options :=
    if truthy (dictGetD s "native") then options ++ "&selectedFilters=includeNative"
    else options
  match dictGetD s "source", dictGetD s "initpage", dictGetD s "maxpages" with
  | Val.str src, Val.int init, Val.int maxpages =>
      some ((List.range maxpages.toNat).map
        (fun index : ℕ => src ++ "?page=" ++ toString ((index : ℤ) + init) ++ options))
  | _, _, _ => Option.none

/-- The metadata header built inside `add_header_data`
(`pdbscraper.py` lines 452-457): fixed creator tag, generated timestamp,
then `meta.update(addendum)` (only when the addendum is truthy, i.e. a
non-empty dict), then `meta.update(settings)`.  `timestamp` is
`str(datetime.datetime.utcnow())`. -/
def header_meta (settings : Dict) (addendum : Option Dict) (timestamp : String) : Dict :=
  let meta : Dict :=
    [("creator", Val.str "https://github.com/thingsiplay/protondb_scraper"),
     ("timestamp", Val.str timestamp)]
  let meta :=
    match addendum with
    | some a => if a = [] then meta else dictUpdate meta a
    | Option.none => meta
  dictUpdate meta settings

/-- `add_header_data` (`pdbscraper.py` lines 433-459): insert the metadata
header at position 0 of the database. -/
def add_header_data (database : List Dict) (settings : Dict)
    (addendum : Option Dict) (timestamp : String) : List Dict :=
  header_meta settings addendum timestamp :: database

/-- The filesystem outcome of `open(settings['output'], 'w')` and the write
in `write_database`: success (with the absolute path of the written file),
or one of the two caught exceptions. -/
inductive WriteOutcome where
  | success (abspath : String)
  | isADirectoryError
  | permissionError
  deriving DecidableEq, Repr

/-- `write_database` (`pdbscraper.py` lines 462-486): on success the result
is the absolute file path; the two caught errors print a message and leave
`file_path = None`.  The filesystem itself is external, so its behaviour is
the `outcome` parameter.  Result: (`file_path`, printed error lines). -/
def write_database (settings : Dict) (outcome : WriteOutcome) :
    Option String × List String :=
  match outcome with
  | WriteOutcome.success p => (some p, [])
  | WriteOutcome.isADirectoryError =>
      (Option.none, ["Cannot write output file as: " ++ pyStr (dictGetD settings "output")])
  | WriteOutcome.permissionError =>
      (Option.none, ["No permission to write output file to: " ++ pyStr (dictGetD settings "output")])

/-- The final `print(len(database) - 1, 'games processed in:', database_path)`
of `main` (`pdbscraper.py` line 513).  A `None` path prints as `None`, the
test-mode path prints as the empty string. -/
def reportLine (database : List Dict) (path : Option String) : String :=
  toString ((database.length : ℤ) - 1) ++ " games processed in: " ++
    (match path with
     | some p => p
     | Option.none => "None")

/-- What the tail of `main` produced: whether `write_database` was invoked,
the resulting `database_path`, and the printed lines. -/
structure MainFinish where
  wroteCalled : Bool
  database_path : Option String
  lines : List String
  deriving DecidableEq, Repr

/-- The tail of `main` (`pdbscraper.py` lines 507-513): save the database as
a json file unless in test mode (where `database_path = ''`), then print the
final record count and location. -/
def main_finish (settings : Dict) (database : List Dict)
    (outcome : WriteOutcome) : MainFinish :=
  if truthy (dictGetD settings "test") then
    { wroteCalled := false
      database_path := some ""
      lines := [reportLine database (some "")] }
  else
    let r := write_database settings outcome
    { wroteCalled := true
      database_path := r.1
      lines := r.2 ++ [reportLine database r.1] }

/-! ### Driver session events (`create_database`) -/

/-- One observable action of the browser session inside `create_database`. -/
inductive Event where
  | navigate (url : String)
  | sleep (secs : Val)
  | implicitWait
  | clickLayoutCell
  | pageDown
  | findMarker (found : Bool)
  | extractPage (ncontainers : ℕ)
  deriving DecidableEq, Repr

/-- `page_select_layout_cell` (`pdbscraper.py` lines 341-353): click the
cell-layout control, then sleep `settings['wait']` seconds. -/
def page_select_layout_cell_events (wait : Val) : List Event :=
  [Event.clickLayoutCell, Event.sleep wait]

/-- `page_scroll_down` (`pdbscraper.py` lines 355-362): send the PAGE_DOWN
key `settings['pagedown']` times, sleeping `settings['wait']` seconds after
each (a non-positive count runs zero iterations, like `range`). -/
def page_scroll_down_events (wait : Val) (pagedown : ℤ) : List Event :=
  (List.range pagedown.toNat).flatMap (fun _ => [Event.pageDown, Event.sleep wait])

/-- The `for _ in range(5)` ready-check loop of `page_load`
(`pdbscraper.py` lines 370-378): each attempt sleeps `wait` and then queries
for the marker container, breaking out when it is found; a
`NoSuchElementException` is swallowed and the loop goes on.  `found i` is
the driver's answer at attempt number `i`; `fuel` is the remaining
iterations (5 at the top). -/
def ready_check_events (wait : Val) (found : ℕ → Bool) : ℕ → ℕ → List Event
  | 0, _ => []
  | fuel + 1, i =>
      Event.sleep wait :: Event.findMarker (found i) ::
        (if found i then [] else ready_check_events wait found fuel (i + 1))

/-- `page_load` (`pdbscraper.py` lines 364-379): navigate, sleep 1 second,
sleep `wait` more unless `fast`, then run the bounded ready-check.  The
function always returns the driver afterwards, whether or not the marker
was ever found. -/
def page_load_events (url : String) (fast : Bool) (wait : Val)
    (found : ℕ → Bool) : List Event :=
  Event.navigate url :: Event.sleep (Val.int 1) ::
    ((if fast then [] else [Event.sleep wait]) ++ ready_check_events wait found 5 0)

/-- One iteration of the page loop of `create_database`
(`pdbscraper.py` lines 391-403): load the page; unless `fast`, set the
implicit wait and select the cell layout; scroll down; then extract every
rendered game container (`ncontainers` of them). -/
def page_events (url : String) (fast : Bool) (wait : Val) (pagedown : ℤ)
    (found : ℕ → Bool) (ncontainers : ℕ) : List Event :=
  page_load_events url fast wait found ++
    (if fast then [] else Event.implicitWait :: page_select_layout_cell_events wait) ++
    page_scroll_down_events wait pagedown ++
    [Event.extractPage ncontainers]

/-- The whole `for url in build_url_list(settings)` loop of
`create_database` (`pdbscraper.py` lines 391-403) as an event trace.  Page
oracles are consumed positionally: the head URL uses `found 0` and
`containers 0`, the tail shifts them by one. -/
def create_database_events (urls : List String) (fast : Bool) (wait : Val)
    (pagedown : ℤ) (found : ℕ → ℕ → Bool) (containers : ℕ → ℕ) : List Event :=
  match urls with
  | [] => []
  | url :: rest =>
      page_events url fast wait pagedown (found 0) (containers 0) ++
        create_database_events rest fast wait pagedown
          (fun p => found (p + 1)) (fun p => containers (p + 1))

/-- Recognizer for ready-check attempts in a trace. -/
def isAttempt : Event → Bool
  | Event.findMarker _ => true
  | _ => false

/-- Recognizer for extraction phases in a trace. -/
def isExtract : Event → Bool
  | Event.extractPage _ => true
  | _ => false

/-- Recognizer for PAGE_DOWN key events in a trace. -/
def isPageDown : Event → Bool
  | Event.pageDown => true
  | _ => false

/-- Recognizer for layout-control clicks in a trace. -/
def isClickLayout : Event → Bool
  | Event.clickLayoutCell => true
  | _ => false

/-- Recognizer for `implicitly_wait` calls in a trace. -/
def isImplicitWait : Event → Bool
  | Event.implicitWait => true
  | _ => false

/-- The fallback half of the spec's precedence rule: the config-file value
when the key is present in the (effective) config file, else the built-in
default. -/
def config_or_default (cfgEff : Dict) (k : String) : Val :=
  match dictGet cfgEff k with
  | some v => v
  | Option.none => dictGetD defaults k

/-- The spec's per-key precedence rule, stated in the spec's own words: the
commandline override when one was passed (non-absent), else the config-file
value when the key is present in the effective config file, else the
built-in default.  This is the definition the resolver is compared against
for the refinement claim C1; it is not a transcription of the code. -/
def resolved_per_spec (args cfgEff : Dict) (k : String) : Val :=
  match dictGet args k with
  | some v => if v = Val.none then config_or_default cfgEff k else v
  | Option.none => config_or_default cfgEff k

/-! ### Association-list lemmas -/

@[simp] theorem dictKeys_nil : dictKeys [] = [] := rfl

@[simp] theorem dictKeys_cons (p : String × Val) (rest : Dict) :
    dictKeys (p :: rest) = p.1 :: dictKeys rest := rfl

@[simp] theorem dictGet_nil (k : String) : dictGet [] k = Option.none := rfl

@[simp] theorem dictGet_cons (k' : String) (v' : Val) (rest : Dict) (k : String) :
    dictGet ((k', v') :: rest) k = if k' = k then some v' else dictGet rest k := rfl

theorem dictGet_eq_none_of_not_mem (d : Dict) (k : String) (h : k ∉ dictKeys d) :
    dictGet d k = Option.none := by
  induction d with
  | nil => rfl
  | cons p rest ih =>
    obtain ⟨k', v'⟩ := p
    simp only [dictKeys_cons, List.mem_cons, not_or] at h
    simp [Ne.symm h.1, ih h.2]

theorem dictGet_dictSet_self (d : Dict) (k : String) (v : Val) :
    dictGet (dictSet d k v) k = some v := by
  induction d with
  | nil => simp [dictSet]
  | cons p rest ih =>
    obtain ⟨k', v'⟩ := p
    by_cases h : k' = k <;> simp [dictSet, h, ih]

theorem dictGet_dictSet_ne (d : Dict) {k k' : String} (v : Val) (h : k' ≠ k) :
    dictGet (dictSet d k' v) k = dictGet d k := by
  induction d with
  | nil => simp [dictSet, h]
  | cons p rest ih =>
    obtain ⟨k0, v0⟩ := p
    by_cases h0 : k0 = k' <;> simp [dictSet, h0, h, ih]

theorem mem_dictKeys_dictSet (d : Dict) (k : String) (v : Val) (k0 : String) :
    k0 ∈ dictKeys (dictSet d k v) ↔ k0 = k ∨ k0 ∈ dictKeys d := by
  induction d with
  | nil => simp [dictSet]
  | cons p rest ih =>
    obtain ⟨k', v'⟩ := p
    by_cases h : k' = k
    · subst h; simp [dictSet]
    · simp only [dictSet, h, if_false, dictKeys_cons, List.mem_cons, ih]
      tauto

theorem nodup_dictKeys_dictSet (d : Dict) (k : String) (v : Val)
    (h : (dictKeys d).Nodup) : (dictKeys (dictSet d k v)).Nodup := by
  induction d with
  | nil => simp [dictSet]
  | cons p rest ih =>
    obtain ⟨k', v'⟩ := p
    simp only [dictKeys_cons, List.nodup_cons] at h
    by_cases hk : k' = k
    · subst hk; simpa [dictSet] using h
    · simp only [dictSet, hk, if_false, dictKeys_cons, List.nodup_cons]
      exact ⟨fun hmem => by
        rcases (mem_dictKeys_dictSet rest k v k').1 hmem with h1 | h1
        · exact hk h1
        · exact h.1 h1,
        ih h.2⟩

theorem dictGet_dictUpdate (d c : Dict) (k : String) (hc : (dictKeys c).Nodup) :
    dictGet (dictUpdate d c) k =
      match dictGet c k with
      | some v => some v
      | Option.none => dictGet d k := by
  induction c generalizing d with
  | nil => rfl
  | cons p rest ih =>
    obtain ⟨k', v'⟩ := p
    simp only [dictKeys_cons, List.nodup_cons] at hc
    have step : dictUpdate d ((k', v') :: rest) = dictUpdate (dictSet d k' v') rest := rfl
    rw [step, ih _ hc.2]
    by_cases h : k' = k
    · subst h
      rw [dictGet_eq_none_of_not_mem rest k' hc.1]
      simp [dictGet_dictSet_self]
    · cases hgr : dictGet rest k <;> simp [h, hgr, dictGet_dictSet_ne _ _ h]

theorem dictGet_overlayArgs (s a : Dict) (k : String) (ha : (dictKeys a).Nodup) :
    dictGet (overlayArgs s a) k =
      match dictGet a k with
      | some v => if v = Val.none then dictGet s k else some v
      | Option.none => dictGet s k := by
  induction a generalizing s with
  | nil => rfl
  | cons p rest ih =>
    obtain ⟨k', v'⟩ := p
    simp only [dictKeys_cons, List.nodup_cons] at ha
    have step : overlayArgs s ((k', v') :: rest) =
        overlayArgs (if v' = Val.none then s else dictSet s k' v') rest := rfl
    rw [step, ih _ ha.2]
    by_cases h : k' = k
    · subst h
      rw [dictGet_eq_none_of_not_mem rest k' ha.1]
      by_cases hv : v' = Val.none <;> simp [hv, dictGet_dictSet_self]
    · cases hgr : dictGet rest k <;>
        by_cases hv : v' = Val.none <;>
          simp [h, hgr, hv, dictGet_dictSet_ne _ _ h]

theorem dictGet_ite (c : Prop) [Decidable c] (d1 d2 : Dict) (k : String) :
    dictGet (if c then d1 else d2) k = if c then dictGet d1 k else dictGet d2 k := by
  split_ifs <;> rfl

theorem dictGet_testOutputStage_untouched (s : Dict) (today k : String)
    (h : k ∉ presetWrittenKeys) :
    dictGet (testOutputStage s today) k = dictGet s k := by
  simp only [presetWrittenKeys, List.mem_cons, List.not_mem_nil, or_false, not_or] at h
  obtain ⟨h1, h2, h3, h4, h5, h6, h7⟩ := h
  unfold testOutputStage applyTestPreset
  simp [dictGet_ite, dictGet_dictSet_ne, Ne.symm h1, Ne.symm h2, Ne.symm h3,
    Ne.symm h4, Ne.symm h5, Ne.symm h6, Ne.symm h7]

theorem dictGet_fastStage_untouched (s : Dict) (k : String)
    (h1 : k ≠ "optimize") (h5 : k ≠ "wait") :
    dictGet (fastStage s) k = dictGet s k := by
  unfold fastStage
  simp [dictGet_ite, dictGet_dictSet_ne, Ne.symm h1, Ne.symm h5]

theorem dictGet_presetStage_untouched (s : Dict) (today k : String)
    (h : k ∉ presetWrittenKeys) :
    dictGet (presetStage s today) k = dictGet s k := by
  have h1 : k ≠ "optimize" := by
    intro hk; exact h (by simp [presetWrittenKeys, hk])
  have h5 : k ≠ "wait" := by
    intro hk; exact h (by simp [presetWrittenKeys, hk])
  rw [presetStage, dictGet_fastStage_untouched _ _ h1 h5,
    dictGet_testOutputStage_untouched _ _ _ h]

/-- Claim C1: for every recognized settings key that the `test` and `fast`
preset blocks (and the default-output `elif`) never write, the resolved
value is the commandline override when one was passed (non-absent), else the
config-file value when the key is present in the supplied config file, else
the built-in default — for every combination of config-file contents and
commandline overrides. -/
theorem c1_settings_precedence (args cfg : Dict) (today k : String)
    (hargs : (dictKeys args).Nodup) (hcfg : (dictKeys cfg).Nodup)
    (hk : k ∈ untouchedKeys) :
    dictGet (get_settings args (some cfg) today) k =
      some (resolved_per_spec args
        (if truthy (dictGetD args "config") then cfg else []) k) := by
  have hk7 : k ∉ presetWrittenKeys := by
    simp only [untouchedKeys, List.mem_cons, List.not_mem_nil, or_false] at hk
    rcases hk with rfl | rfl | rfl | rfl | rfl | rfl | rfl <;> decide
  have hdef : dictGet defaults k = some (dictGetD defaults k) := by
    simp only [untouchedKeys, List.mem_cons, List.not_mem_nil, or_false] at hk
    rcases hk with rfl | rfl | rfl | rfl | rfl | rfl | rfl <;> rfl
  unfold get_settings
  rw [dictGet_presetStage_untouched _ _ _ hk7,
    dictGet_overlayArgs _ _ _ hargs]
  unfold configStage
  by_cases hc : truthy (dictGetD args "config")
  · simp only [hc, if_true]
    rw [dictGet_dictUpdate _ _ _ hcfg]
    cases hga : dictGet args k <;> cases hgc : dictGet cfg k <;>
      simp [resolved_per_spec, config_or_default, hga, hgc, hdef, apply_ite] <;>
      split_ifs with hv <;> simp [hv]
  · simp only [hc, if_false]
    cases hga : dictGet args k <;>
      simp [resolved_per_spec, config_or_default, hga, hdef, apply_ite] <;>
      split_ifs with hv <;> simp [hv]

/-- Witness for C1 at a concrete input: the commandline `sort` override wins
over the config-file value and the default. -/
theorem c1_settings_precedence_witness :
    dictGet
      (get_settings [("config", Val.str "my.json"), ("sort", Val.str "playerCount")]
        (some [("driver", Val.str "/opt/gecko"), ("sort", Val.str "userScore")])
        "2026-10-12") "sort"
      = some (Val.str "playerCount") := by
  rw [c1_settings_precedence
    [("config", Val.str "my.json"), ("sort", Val.str "playerCount")]
    [("driver", Val.str "/opt/gecko"), ("sort", Val.str "userScore")]
    "2026-10-12" "sort" (by decide) (by decide) (by decide)]
  decide

/-- Claim C2: whenever the resolved `test` flag is truthy, the resolved
settings leave `output` unset (`None`) — even if a config file or a
commandline override set an output path, and even if `fast` is also set —
and the tail of `main` never calls `write_database` and reports the empty
path. -/
theorem c2_test_forces_output_unset (args : Dict) (cf : Option Dict) (today : String)
    (db : List Dict) (outcome : WriteOutcome)
    (h : truthy (dictGetD (get_settings args cf today) "test") = true) :
    dictGet (get_settings args cf today) "output" = some Val.none ∧
    (main_finish (get_settings args cf today) db outcome).wroteCalled = false ∧
    (main_finish (get_settings args cf today) db outcome).database_path = some "" := by
  have hpres : dictGet (get_settings args cf today) "test"
      = dictGet (overlayArgs (configStage args cf) args) "test" :=
    dictGet_presetStage_untouched _ _ _ (by decide)
  have htest2 : truthy (dictGetD (overlayArgs (configStage args cf) args) "test") = true := by
    rw [dictGetD, ← hpres]; exact h
  refine ⟨?_, ?_, ?_⟩
  · show dictGet
      (fastStage (testOutputStage (overlayArgs (configStage args cf) args) today)) "output"
      = some Val.none
    rw [dictGet_fastStage_untouched _ _ (by decide) (by decide)]
    unfold testOutputStage
    simp [htest2, applyTestPreset, dictGet_dictSet_ne, dictGet_dictSet_self]
  · simp [main_finish, h]
  · simp [main_finish, h]

/-- Witness for C2: with `--test --fast`, an explicit commandline output and
a config-file output, the resolved output is still unset and no write
happens. -/
theorem c2_test_forces_output_unset_witness :
    dictGet
      (get_settings
        [("config", Val.str "c.json"), ("test", Val.bool true),
         ("fast", Val.bool true), ("output", Val.str "cli.json")]
        (some [("output", Val.str "cfg.json")]) "2026-10-12") "output"
      = some Val.none ∧
    (main_finish
      (get_settings
        [("config", Val.str "c.json"), ("test", Val.bool true),
         ("fast", Val.bool true), ("output", Val.str "cli.json")]
        (some [("output", Val.str "cfg.json")]) "2026-10-12")
      [] (WriteOutcome.success "/tmp/db.json")).wroteCalled = false := by
  have h := c2_test_forces_output_unset
    [("config", Val.str "c.json"), ("test", Val.bool true),
     ("fast", Val.bool true), ("output", Val.str "cli.json")]
    (some [("output", Val.str "cfg.json")]) "2026-10-12"
    [] (WriteOutcome.success "/tmp/db.json") (by decide)
  exact ⟨h.1, h.2.1⟩

/-- Claim C3: whenever the resolved `fast` flag is truthy, the final
settings have `optimize = True` and `wait = 0.1`, whatever the defaults,
config file, commandline and `test` preset did before. -/
theorem c3_fast_forces_optimize_wait (args : Dict) (cf : Option Dict) (today : String)
    (h : truthy (dictGetD (get_settings args cf today) "fast") = true) :
    dictGet (get_settings args cf today) "optimize" = some (Val.bool true) ∧
    dictGet (get_settings args cf today) "wait" = some (Val.float (1/10)) := by
  have hfast : dictGet (get_settings args cf today) "fast"
      = dictGet (testOutputStage (overlayArgs (configStage args cf) args) today) "fast" :=
    dictGet_fastStage_untouched _ _ (by decide) (by decide)
  have hcond : truthy
      (dictGetD (testOutputStage (overlayArgs (configStage args cf) args) today) "fast")
      = true := by
    rw [dictGetD, ← hfast]; exact h
  constructor
  · show dictGet
      (fastStage (testOutputStage (overlayArgs (configStage args cf) args) today)) "optimize"
      = some (Val.bool true)
    unfold fastStage
    simp [hcond, dictGet_dictSet_ne, dictGet_dictSet_self]
  · show dictGet
      (fastStage (testOutputStage (overlayArgs (configStage args cf) args) today)) "wait"
      = some (Val.float (1/10))
    unfold fastStage
    simp [hcond, dictGet_dictSet_self]

/-- Witness for C3: with `--test --fast` both set, `fast` overrides the
`wait = 1` forced by the `test` preset and the `optimize = False` it
forced. -/
theorem c3_fast_forces_optimize_wait_witness :
    dictGet
      (get_settings [("test", Val.bool true), ("fast", Val.bool true)]
        Option.none "2026-10-12") "optimize" = some (Val.bool true) ∧
    dictGet
      (get_settings [("test", Val.bool true), ("fast", Val.bool true)]
        Option.none "2026-10-12") "wait" = some (Val.float (1/10)) :=
  c3_fast_forces_optimize_wait [("test", Val.bool true), ("fast", Val.bool true)]
    Option.none "2026-10-12" (by decide)

/-- Claim C6: for settings whose `source`, `initpage`, `maxpages`, `sort`
and `native` values are well typed, `build_url_list` returns exactly
`maxpages` URLs, the `i`-th being
`source ++ "?page=" ++ (i + initpage) ++ "&sort=" ++ sort`, with
`"&selectedFilters=includeNative"` appended iff `native` is true. -/
theorem c6_build_url_list (s : Dict) (src srt : String) (init m : ℤ) (native : Bool)
    (hsrc : dictGetD s "source" = Val.str src)
    (hinit : dictGetD s "initpage" = Val.int init)
    (hmax : dictGetD s "maxpages" = Val.int m)
    (hsort : dictGetD s "sort" = Val.str srt)
    (hnat : dictGetD s "native" = Val.bool native) :
    build_url_list s =
      some ((List.range m.toNat).map (fun i : ℕ =>
        src ++ "?page=" ++ toString ((i : ℤ) + init) ++ "&sort=" ++ srt ++
          (if native then "&selectedFilters=includeNative" else ""))) ∧
    ∀ urls, build_url_list s = some urls → urls.length = m.toNat := by
  have h1 : build_url_list s =
      some ((List.range m.toNat).map (fun i : ℕ =>
        src ++ "?page=" ++ toString ((i : ℤ) + init) ++ "&sort=" ++ srt ++
          (if native then "&selectedFilters=includeNative" else ""))) := by
    unfold build_url_list
    rw [hsort, hnat, hsrc, hinit, hmax]
    cases native <;>
      simp [truthy, pyStr, String.append_assoc, String.append_empty]
  refine ⟨h1, ?_⟩
  intro urls hurls
  rw [h1, Option.some_inj] at hurls
  rw [← hurls]
  simp

/-- Witness for C6, the spec's own example: `maxpages=3, initpage=5,
sort="playerCount", native=false` yields exactly the three URLs with page
parameters 5, 6, 7 and no native filter. -/
theorem c6_build_url_list_witness :
    build_url_list
      (get_settings
        [("maxpages", Val.int 3), ("initpage", Val.int 5), ("sort", Val.str "playerCount")]
        Option.none "2026-10-12") =
      some ["https://www.protondb.com/explore?page=5&sort=playerCount",
            "https://www.protondb.com/explore?page=6&sort=playerCount",
            "https://www.protondb.com/explore?page=7&sort=playerCount"] := by
  rw [(c6_build_url_list
    (get_settings
      [("maxpages", Val.int 3), ("initpage", Val.int 5), ("sort", Val.str "playerCount")]
      Option.none "2026-10-12")
    "https://www.protondb.com/explore" "playerCount" 5 3 false
    (by decide) (by decide) (by decide) (by decide) (by decide)).1]
  decide

/-- Claim C7: `add_header_data` inserts the header exactly once, as element
0, keeps every pre-existing record in its original order after it, and so
the assembled database satisfies `len(database) - 1 = number of records` —
for any harvest, including the empty one. -/
theorem c7_header_database_invariant (database : List Dict) (settings : Dict)
    (addendum : Option Dict) (timestamp : String) :
    (add_header_data database settings addendum timestamp).length - 1 = database.length ∧
    (add_header_data database settings addendum timestamp).head?
      = some (header_meta settings addendum timestamp) ∧
    (add_header_data database settings addendum timestamp).tail = database := by
  refine ⟨?_, rfl, rfl⟩
  simp [add_header_data]

/-- Claim C10 (implicit): in `add_header_data`, the addendum is merged into
the header before the settings snapshot, so the settings value wins on every
key the two share; and since the fixed creator tag and the generated
timestamp are written first, an addendum or settings entry named `creator`
or `timestamp` overwrites them. -/
theorem c10_header_merge_order (settings addendum : Dict) (timestamp k : String)
    (hs : (dictKeys settings).Nodup) (ha : (dictKeys addendum).Nodup) :
    (∀ v, dictGet settings k = some v →
      dictGet (header_meta settings (some addendum) timestamp) k = some v) ∧
    (∀ v, dictGet settings k = Option.none → dictGet addendum k = some v →
      dictGet (header_meta settings (some addendum) timestamp) k = some v) := by
  unfold header_meta
  by_cases hae : addendum = []
  · subst hae
    constructor
    · intro v hv
      simp only [if_pos rfl]
      rw [dictGet_dictUpdate _ _ _ hs, hv]
    · intro v _ hv
      simp at hv
  · constructor
    · intro v hv
      simp only [if_neg hae]
      rw [dictGet_dictUpdate _ _ _ hs, hv]
    · intro v hsv hv
      simp only [if_neg hae]
      rw [dictGet_dictUpdate _ _ _ hs, hsv, dictGet_dictUpdate _ _ _ ha, hv]

/-- Witness for C10: a settings `creator` beats both the fixed creator tag
and an addendum `creator`; an addendum key absent from settings survives
into the header. -/
theorem c10_header_merge_order_witness :
    dictGet
      (header_meta [("creator", Val.str "me")]
        (some [("creator", Val.str "them"), ("extra", Val.int 1)])
        "2026-10-12 00:00:00") "creator" = some (Val.str "me") ∧
    dictGet
      (header_meta [("creator", Val.str "me")]
        (some [("creator", Val.str "them"), ("extra", Val.int 1)])
        "2026-10-12 00:00:00") "extra" = some (Val.int 1) := by
  have h1 := c10_header_merge_order [("creator", Val.str "me")]
    [("creator", Val.str "them"), ("extra", Val.int 1)]
    "2026-10-12 00:00:00" "creator" (by decide) (by decide)
  have h2 := c10_header_merge_order [("creator", Val.str "me")]
    [("creator", Val.str "them"), ("extra", Val.int 1)]
    "2026-10-12 00:00:00" "extra" (by decide) (by decide)
  exact ⟨h1.1 _ (by decide), h2.2 _ (by decide) (by decide)⟩

/-- Claim C9: `write_database` returns the output file path on success; on a
path-is-directory or permission failure it catches the error, reports it and
returns no path; either way (outside test mode) `main` goes on to print the
final record-count line. -/
theorem c9_write_failures_nonfatal (settings : Dict) (records : List Dict)
    (timestamp : String) (outcome : WriteOutcome) (p : String)
    (htest : truthy (dictGetD settings "test") = false) :
    ((write_database settings (WriteOutcome.success p)).1 = some p) ∧
    (outcome = WriteOutcome.isADirectoryError ∨ outcome = WriteOutcome.permissionError →
      (write_database settings outcome).1 = Option.none ∧
      (write_database settings outcome).2.length = 1) ∧
    ((main_finish settings (add_header_data records settings Option.none timestamp)
        outcome).lines.getLast?
      = some (reportLine (add_header_data records settings Option.none timestamp)
          (main_finish settings (add_header_data records settings Option.none timestamp)
            outcome).database_path)) ∧
    (((add_header_data records settings Option.none timestamp).length : ℤ) - 1
      = records.length) := by
  refine ⟨rfl, ?_, ?_, ?_⟩
  · rintro (rfl | rfl) <;> exact ⟨rfl, rfl⟩
  · cases outcome <;> simp [main_finish, htest, write_database]
  · simp [add_header_data]

/-- Witness for C9: a permission failure yields no path, and the final
report line still counts the single harvested record. -/
theorem c9_write_failures_nonfatal_witness :
    (write_database [] WriteOutcome.permissionError).1 = Option.none ∧
    (main_finish [] (add_header_data [[("appid", Val.str "400")]] [] Option.none "ts")
      WriteOutcome.permissionError).lines.getLast?
      = some "1 games processed in: None" := by
  have h := c9_write_failures_nonfatal [] [[("appid", Val.str "400")]] "ts"
    WriteOutcome.permissionError "/x.json" (by decide)
  refine ⟨(h.2.1 (Or.inr rfl)).1, ?_⟩
  rw [h.2.2.1]
  decide

theorem dictGet_normFlag_ne (flag : String) (d : Dict) (k : String) (h : flag ≠ k) :
    dictGet (normFlag flag d) k = dictGet d k := by
  unfold normFlag
  simp [dictGet_ite, dictGet_dictSet_ne _ _ h]

theorem dictGet_normFlag_falsy (flag : String) (d : Dict) (v : Val)
    (hv : dictGet d flag = some v) (hf : truthy v = false) :
    dictGet (normFlag flag d) flag = some Val.none := by
  unfold normFlag
  simp [dictGetD, hv, hf, dictGet_dictSet_self]

theorem nodup_dictKeys_normFlag (flag : String) (d : Dict)
    (h : (dictKeys d).Nodup) : (dictKeys (normFlag flag d)).Nodup := by
  unfold normFlag
  split_ifs
  · exact h
  · exact nodup_dictKeys_dictSet _ _ _ h

/-- Claim C8: a `store_true` flag that was not passed on the commandline
(parsed value `False`) is normalized to the absent sentinel `None` by the
tail of `get_arguments`, and therefore the commandline overlay of
`get_settings` leaves whatever value the earlier stages (defaults or config
file) put there — in particular it never masks a config-file-provided
`True`. -/
theorem c8_unpassed_flags_treated_absent (d s : Dict) (k : String)
    (hd : (dictKeys d).Nodup) (hk : k ∈ storeTrueFlags)
    (hv : dictGet d k = some (Val.bool false)) :
    dictGet (normalize_store_true d) k = some Val.none ∧
    dictGet (overlayArgs s (normalize_store_true d)) k = dictGet s k := by
  have hn : dictGet (normalize_store_true d) k = some Val.none := by
    simp only [storeTrueFlags, List.mem_cons, List.not_mem_nil, or_false] at hk
    unfold normalize_store_true
    rcases hk with rfl | rfl | rfl | rfl | rfl
    · have h0 : dictGet (normFlag "native" d) "native" = some Val.none :=
        dictGet_normFlag_falsy _ _ (Val.bool false) hv rfl
      rw [dictGet_normFlag_ne _ _ _ (by decide), dictGet_normFlag_ne _ _ _ (by decide),
        dictGet_normFlag_ne _ _ _ (by decide), dictGet_normFlag_ne _ _ _ (by decide), h0]
    · have h1 : dictGet (normFlag "native" d) "printconfig" = some (Val.bool false) := by
        rw [dictGet_normFlag_ne _ _ _ (by decide)]
        exact hv
      have h0 := dictGet_normFlag_falsy "printconfig" _ (Val.bool false) h1 rfl
      rw [dictGet_normFlag_ne _ _ _ (by decide), dictGet_normFlag_ne _ _ _ (by decide),
        dictGet_normFlag_ne _ _ _ (by decide), h0]
    · have h1 : dictGet (normFlag "printconfig" (normFlag "native" d)) "optimize"
          = some (Val.bool false) := by
        rw [dictGet_normFlag_ne _ _ _ (by decide), dictGet_normFlag_ne _ _ _ (by decide)]
        exact hv
      have h0 := dictGet_normFlag_falsy "optimize" _ (Val.bool false) h1 rfl
      rw [dictGet_normFlag_ne _ _ _ (by decide), dictGet_normFlag_ne _ _ _ (by decide), h0]
    · have h1 : dictGet (normFlag "optimize" (normFlag "printconfig" (normFlag "native" d)))
          "test" = some (Val.bool false) := by
        rw [dictGet_normFlag_ne _ _ _ (by decide), dictGet_normFlag_ne _ _ _ (by decide),
          dictGet_normFlag_ne _ _ _ (by decide)]
        exact hv
      have h0 := dictGet_normFlag_falsy "test" _ (Val.bool false) h1 rfl
      rw [dictGet_normFlag_ne _ _ _ (by decide), h0]
    · have h1 : dictGet
          (normFlag "test" (normFlag "optimize" (normFlag "printconfig" (normFlag "native" d))))
          "fast" = some (Val.bool false) := by
        rw [dictGet_normFlag_ne _ _ _ (by decide), dictGet_normFlag_ne _ _ _ (by decide),
          dictGet_normFlag_ne _ _ _ (by decide), dictGet_normFlag_ne _ _ _ (by decide)]
        exact hv
      exact dictGet_normFlag_falsy "fast" _ (Val.bool false) h1 rfl
  have hnd : (dictKeys (normalize_store_true d)).Nodup := by
    unfold normalize_store_true
    exact nodup_dictKeys_normFlag _ _ (nodup_dictKeys_normFlag _ _
      (nodup_dictKeys_normFlag _ _ (nodup_dictKeys_normFlag _ _
        (nodup_dictKeys_normFlag _ _ hd))))
  refine ⟨hn, ?_⟩
  rw [dictGet_overlayArgs _ _ _ hnd, hn]
  simp

/-- Witness for C8: an unpassed `--native` (parsed `False`) normalizes to
`None` and does not mask a config-file-provided `native = true`. -/
theorem c8_unpassed_flags_treated_absent_witness :
    dictGet
      (normalize_store_true
        [("native", Val.bool false), ("printconfig", Val.bool true),
         ("optimize", Val.bool false), ("test", Val.bool false),
         ("fast", Val.bool false)]) "native" = some Val.none ∧
    dictGet
      (overlayArgs [("native", Val.bool true)]
        (normalize_store_true
          [("native", Val.bool false), ("printconfig", Val.bool true),
           ("optimize", Val.bool false), ("test", Val.bool false),
           ("fast", Val.bool false)])) "native" = some (Val.bool true) := by
  have h := c8_unpassed_flags_treated_absent
    [("native", Val.bool false), ("printconfig", Val.bool true),
     ("optimize", Val.bool false), ("test", Val.bool false),
     ("fast", Val.bool false)]
    [("native", Val.bool true)] "native" (by decide) (by decide) (by decide)
  refine ⟨h.1, ?_⟩
  rw [h.2]
  decide

/-! ### Driver trace lemmas -/

theorem countP_ready_check_le (wait : Val) (found : ℕ → Bool) :
    ∀ fuel i, (ready_check_events wait found fuel i).countP isAttempt ≤ fuel := by
  intro fuel
  induction fuel with
  | zero => intro i; simp [ready_check_events]
  | succ fuel ih =>
    intro i
    cases h : found i <;>
      simp [ready_check_events, h, List.countP_cons, isAttempt]
    exact ih (i + 1)

theorem countP_ready_check_zero (p : Event → Bool) (wait : Val) (found : ℕ → Bool)
    (hp1 : ∀ q, p (Event.sleep q) = false) (hp2 : ∀ b, p (Event.findMarker b) = false) :
    ∀ fuel i, (ready_check_events wait found fuel i).countP p = 0 := by
  intro fuel
  induction fuel with
  | zero => intro i; simp [ready_check_events]
  | succ fuel ih =>
    intro i
    cases h : found i <;>
      simp [ready_check_events, h, List.countP_cons, hp1, hp2, ih (i + 1)]

theorem ready_check_structure (wait : Val) (found : ℕ → Bool) :
    ∀ fuel i, ready_check_events wait found fuel i =
      (List.range ((ready_check_events wait found fuel i).countP isAttempt)).flatMap
        (fun j => [Event.sleep wait, Event.findMarker (found (i + j))]) := by
  intro fuel
  induction fuel with
  | zero => intro i; simp [ready_check_events]
  | succ fuel ih =>
    intro i
    cases h : found i
    · have hstep : ready_check_events wait found (fuel + 1) i
          = Event.sleep wait :: Event.findMarker (found i) ::
              ready_check_events wait found fuel (i + 1) := by
        simp [ready_check_events, h]
      have hc : (ready_check_events wait found (fuel + 1) i).countP isAttempt
          = (ready_check_events wait found fuel (i + 1)).countP isAttempt + 1 := by
        rw [hstep]; simp [List.countP_cons, isAttempt]
      have hfun : (fun a : ℕ => [Event.sleep wait, Event.findMarker (found (i + a.succ))])
          = fun j => [Event.sleep wait, Event.findMarker (found ((i + 1) + j))] := by
        funext j
        rw [show i + j.succ = (i + 1) + j by omega]
      rw [hc, List.range_succ_eq_map, List.flatMap_cons, List.flatMap_map, hfun,
        ← ih (i + 1), hstep]
      simp
    · have hstep : ready_check_events wait found (fuel + 1) i
          = [Event.sleep wait, Event.findMarker (found i)] := by
        simp [ready_check_events, h]
      have hc : (ready_check_events wait found (fuel + 1) i).countP isAttempt = 1 := by
        rw [hstep]; simp [List.countP_cons, isAttempt]
      rw [hc, hstep, show List.range 1 = [0] from rfl]
      simp

theorem countP_ready_check_early (wait : Val) (found : ℕ → Bool) :
    ∀ fuel i t, t < fuel → found (i + t) = true → (∀ j, j < t → found (i + j) = false) →
      (ready_check_events wait found fuel i).countP isAttempt = t + 1 := by
  intro fuel
  induction fuel with
  | zero => intro i t ht _ _; exact absurd ht (Nat.not_lt_zero t)
  | succ fuel ih =>
    intro i t ht hft hprev
    cases t with
    | zero =>
      have h : found i = true := by simpa using hft
      simp [ready_check_events, h, List.countP_cons, isAttempt]
    | succ s =>
      have h0 : found i = false := by simpa using hprev 0 (Nat.succ_pos s)
      have hft' : found ((i + 1) + s) = true := by
        rw [show (i + 1) + s = i + (s + 1) by omega]; exact hft
      have hprev' : ∀ j, j < s → found ((i + 1) + j) = false := fun j hj => by
        rw [show (i + 1) + j = i + (j + 1) by omega]
        exact hprev (j + 1) (by omega)
      have hrec := ih (i + 1) s (by omega) hft' hprev'
      simp [ready_check_events, h0, List.countP_cons, isAttempt, hrec]

theorem countP_ready_check_exhaust (wait : Val) (found : ℕ → Bool) :
    ∀ fuel i, (∀ t, t < fuel → found (i + t) = false) →
      (ready_check_events wait found fuel i).countP isAttempt = fuel := by
  intro fuel
  induction fuel with
  | zero => intro i _; simp [ready_check_events]
  | succ fuel ih =>
    intro i hall
    have h0 : found i = false := by simpa using hall 0 (Nat.succ_pos fuel)
    have hall' : ∀ t, t < fuel → found ((i + 1) + t) = false := fun t ht => by
      rw [show (i + 1) + t = i + (t + 1) by omega]
      exact hall (t + 1) (by omega)
    have hrec := ih (i + 1) hall'
    simp [ready_check_events, h0, List.countP_cons, isAttempt, hrec]

theorem countP_scroll (p : Event → Bool) (wait : Val) (n : ℕ) :
    ((List.range n).flatMap (fun _ => [Event.pageDown, Event.sleep wait])).countP p
      = n * [Event.pageDown, Event.sleep wait].countP p := by
  induction n with
  | zero => simp
  | succ n ih =>
    rw [List.range_succ, List.flatMap_append, List.countP_append, ih, Nat.succ_mul]
    simp

theorem countP_page_events_extract (url : String) (fast : Bool) (wait : Val)
    (pagedown : ℤ) (found : ℕ → Bool) (n : ℕ) :
    (page_events url fast wait pagedown found n).countP isExtract = 1 := by
  unfold page_events page_load_events page_select_layout_cell_events page_scroll_down_events
  cases fast <;>
    simp [List.countP_append, List.countP_cons, isExtract,
      countP_ready_check_zero isExtract wait found (fun _ => rfl) (fun _ => rfl),
      countP_scroll]

theorem countP_create_extract (urls : List String) (fast : Bool) (wait : Val)
    (pagedown : ℤ) (found : ℕ → ℕ → Bool) (containers : ℕ → ℕ) :
    (create_database_events urls fast wait pagedown found containers).countP isExtract
      = urls.length := by
  induction urls generalizing found containers with
  | nil => rfl
  | cons url rest ih =>
    simp [create_database_events, List.countP_append, countP_page_events_extract, ih,
      Nat.add_comm]

theorem countP_page_fast_click (url : String) (wait : Val) (pagedown : ℤ)
    (found : ℕ → Bool) (n : ℕ) :
    (page_events url true wait pagedown found n).countP isClickLayout = 0 := by
  unfold page_events page_load_events page_scroll_down_events
  simp [List.countP_append, List.countP_cons, isClickLayout,
    countP_ready_check_zero isClickLayout wait found (fun _ => rfl) (fun _ => rfl),
    countP_scroll]

theorem countP_page_fast_implicit (url : String) (wait : Val) (pagedown : ℤ)
    (found : ℕ → Bool) (n : ℕ) :
    (page_events url true wait pagedown found n).countP isImplicitWait = 0 := by
  unfold page_events page_load_events page_scroll_down_events
  simp [List.countP_append, List.countP_cons, isImplicitWait,
    countP_ready_check_zero isImplicitWait wait found (fun _ => rfl) (fun _ => rfl),
    countP_scroll]

theorem countP_page_fast_pageDown (url : String) (wait : Val) (pagedown : ℤ)
    (found : ℕ → Bool) (n : ℕ) :
    (page_events url true wait pagedown found n).countP isPageDown = pagedown.toNat := by
  unfold page_events page_load_events page_scroll_down_events
  simp [List.countP_append, List.countP_cons, isPageDown,
    countP_ready_check_zero isPageDown wait found (fun _ => rfl) (fun _ => rfl),
    countP_scroll]

/-- Counterexample to claim C4 as stated: in a fast run with `pagedown = 10`,
the page-down input signal IS still sent — here it occurs in the trace of a
one-page run, so the scrolling phase is not skipped entirely. -/
theorem c4_counterexample_pagedown_still_sent :
    Event.pageDown ∈ create_database_events
      ["https://www.protondb.com/explore?page=0&sort=wilsonRating"]
      true (Val.float (1/10)) 10 (fun _ _ => true) (fun _ => 50) := by
  decide

/-- Claim C4 amended: when the fast preset is active, only the
display-layout control selection (and the `implicitly_wait` call) is
skipped; the `pagedown` page-down input signals are still sent — exactly
`pagedown` of them per page. -/
theorem countP_create_fast_click (urls : List String) (wait : Val) (pagedown : ℤ)
    (found : ℕ → ℕ → Bool) (containers : ℕ → ℕ) :
    (create_database_events urls true wait pagedown found containers).countP
      isClickLayout = 0 := by
  induction urls generalizing found containers with
  | nil => rfl
  | cons url rest ih =>
    simp [create_database_events, List.countP_append, countP_page_fast_click, ih]

theorem countP_create_fast_implicit (urls : List String) (wait : Val) (pagedown : ℤ)
    (found : ℕ → ℕ → Bool) (containers : ℕ → ℕ) :
    (create_database_events urls true wait pagedown found containers).countP
      isImplicitWait = 0 := by
  induction urls generalizing found containers with
  | nil => rfl
  | cons url rest ih =>
    simp [create_database_events, List.countP_append, countP_page_fast_implicit, ih]

theorem countP_create_fast_pageDown (urls : List String) (wait : Val) (pagedown : ℤ)
    (found : ℕ → ℕ → Bool) (containers : ℕ → ℕ) :
    (create_database_events urls true wait pagedown found containers).countP
      isPageDown = urls.length * pagedown.toNat := by
  induction urls generalizing found containers with
  | nil => simp [create_database_events]
  | cons url rest ih =>
    simp only [create_database_events]
    rw [List.countP_append, countP_page_fast_pageDown, ih, List.length_cons, Nat.succ_mul]
    omega

theorem c4_fast_skips_layout_only (urls : List String) (wait : Val) (pagedown : ℤ)
    (found : ℕ → ℕ → Bool) (containers : ℕ → ℕ) :
    (create_database_events urls true wait pagedown found containers).countP
      isClickLayout = 0 ∧
    (create_database_events urls true wait pagedown found containers).countP
      isImplicitWait = 0 ∧
    (create_database_events urls true wait pagedown found containers).countP isPageDown
      = urls.length * pagedown.toNat :=
  ⟨countP_create_fast_click urls wait pagedown found containers,
   countP_create_fast_implicit urls wait pagedown found containers,
   countP_create_fast_pageDown urls wait pagedown found containers⟩

/-- Claim C5: the ready-check polls for the marker at most 5 times, each
attempt preceded by one `wait` sleep; it exits early as soon as the marker
is found; if all 5 attempts fail it stops at 5; and whatever the oracle
answers, every page still reaches its extraction phase (one extraction per
URL, even with zero rendered containers), so the run neither aborts nor
skips a page. -/
theorem c5_ready_check_best_effort (wait : Val) (found : ℕ → Bool) (url : String)
    (fast : Bool) (pagedown : ℤ) (n : ℕ) (urls : List String)
    (foundRun : ℕ → ℕ → Bool) (containers : ℕ → ℕ) :
    ((ready_check_events wait found 5 0).countP isAttempt ≤ 5) ∧
    (ready_check_events wait found 5 0 =
      (List.range ((ready_check_events wait found 5 0).countP isAttempt)).flatMap
        (fun j => [Event.sleep wait, Event.findMarker (found j)])) ∧
    (∀ i, i < 5 → found i = true → (∀ j, j < i → found j = false) →
      (ready_check_events wait found 5 0).countP isAttempt = i + 1) ∧
    ((∀ i, i < 5 → found i = false) →
      (ready_check_events wait found 5 0).countP isAttempt = 5) ∧
    ((page_events url fast wait pagedown found n).countP isExtract = 1) ∧
    ((create_database_events urls fast wait pagedown foundRun containers).countP isExtract
      = urls.length) := by
  refine ⟨countP_ready_check_le wait found 5 0, ?_, ?_, ?_,
    countP_page_events_extract url fast wait pagedown found n,
    countP_create_extract urls fast wait pagedown foundRun containers⟩
  · have h := ready_check_structure wait found 5 0
    simpa using h
  · intro i hi hfi hprev
    exact countP_ready_check_early wait found 5 0 i hi (by simpa using hfi)
      (fun j hj => by simpa using hprev j hj)
  · intro hall
    exact countP_ready_check_exhaust wait found 5 0
      (fun t ht => by simpa using hall t ht)

/-- Witness for C5: with the marker first found at attempt 2, the loop stops
after 3 attempts; a 2-page run with the marker never found still performs
both extractions. -/
theorem c5_ready_check_best_effort_witness :
    (ready_check_events (Val.float (4/10)) (fun j => j == 2) 5 0).countP isAttempt = 3 ∧
    (create_database_events ["u1", "u2"] false (Val.float (4/10)) 10
      (fun _ _ => false) (fun _ => 0)).countP isExtract = 2 := by
  have h := c5_ready_check_best_effort (Val.float (4/10)) (fun j => j == 2) "u1"
    false 10 0 ["u1", "u2"] (fun _ _ => false) (fun _ => 0)
  refine ⟨?_, h.2.2.2.2.2⟩
  have h3 := h.2.2.1 2 (by omega) (by decide)
    (fun j hj => by simpa using Nat.ne_of_lt hj)
  exact h3

end PdbScraper
